import Mathlib

set_option maxRecDepth 8000

/-!
Verification of the pangguai_life plugin (src/main.py): a shallow embedding of
its pure logic (date arithmetic, string masking, request signing, panel
environment-variable lookup/upsert, token cache, SMS login, account info,
scheduled sweep), with the HTTP responses and the ambient clock passed in as
explicit parameters.  Python machine-level details that matter here are kept:
string slicing operates on code points, `in` is substring containment,
falsiness of `""`, `None` and `0`, and `str.strptime`/`date` arithmetic over
the proleptic Gregorian calendar (dates are represented by their Python
`date.toordinal()` value).
-/

/-! ## Python string primitives -/

/-- Does list `hay` start with `needle`? (helper for substring search). -/
def leadMatch : List Char → List Char → Bool
  | _, [] => true
  | [], _ :: _ => false
  | a :: as, b :: bs => a == b && leadMatch as bs

/-- Is `needle` a contiguous sublist of `hay`? -/
def hasSub : List Char → List Char → Bool
  | [], needle => leadMatch [] needle
  | c :: t, needle => leadMatch (c :: t) needle || hasSub t needle

/-- Python `needle in hay` on strings (substring containment). -/
def pyIn (needle hay : String) : Bool := hasSub hay.data needle.data

/-- Python `s.startswith(p)`. -/
def pyStartsWith (s p : String) : Bool := leadMatch s.data p.data

/-- Python truthiness of an optional string: `None` and `""` are falsy. -/
def pyTruthyStr : Option String → Bool
  | none => false
  | some s => s != ""

/-- Python `list(dict.fromkeys(l))`: deduplicate keeping first occurrences. -/
def pyDedupGo : List String → List String → List String
  | [], _ => []
  | a :: rest, seen => if a ∈ seen then pyDedupGo rest seen else a :: pyDedupGo rest (a :: seen)

/-- Python `list(dict.fromkeys(l))`. -/
def pyDedup (l : List String) : List String := pyDedupGo l []

/-! ## Calendar dates (Python `datetime.date`)

A date value is its Python `date.toordinal()`: day 1 is 0001-01-01 in the
proleptic Gregorian calendar.  `timedelta(days = k)` is then `· + k` and
`date` comparison is the ordinal order. -/

/-- Gregorian leap year (Python `calendar.isleap`). -/
def isLeap (y : Nat) : Bool := (y % 4 == 0 && y % 100 != 0) || y % 400 == 0

/-- Number of days of month `m` (1-12) of year `y`. -/
def daysInMonth (y m : Nat) : Nat :=
  if m = 2 then (if isLeap y then 29 else 28)
  else if m = 4 ∨ m = 6 ∨ m = 9 ∨ m = 11 then 30
  else 31

/-- Days in the years strictly before year `y` (Python `datetime._days_before_year`). -/
def daysBeforeYear (y : Nat) : Nat :=
  365 * (y - 1) + ((y - 1) / 4 - (y - 1) / 100) + (y - 1) / 400

/-- Days of the first `k` months of year `y`. -/
def daysUpTo (y : Nat) : Nat → Nat
  | 0 => 0
  | k + 1 => daysUpTo y k + daysInMonth y (k + 1)

/-- Python `date(y, m, d).toordinal()`. -/
def toOrdinal (y m d : Nat) : Nat :=
  daysBeforeYear y + daysUpTo y (m - 1) + d

/-- Recover the year and 1-based day-of-year from an ordinal; `fuel` bounds
the year scan and is chosen large enough at the call site. -/
def yearLoop : Nat → Nat → Nat → Nat × Nat
  | 0, y, n => (y, n)
  | fuel + 1, y, n =>
    let len := if isLeap y then 366 else 365
    if len < n then yearLoop fuel (y + 1) (n - len) else (y, n)

/-- Recover the month and day from a 1-based day-of-year. -/
def monthLoop : Nat → Nat → Nat → Nat → Nat × Nat
  | 0, _, m, n => (m, n)
  | fuel + 1, y, m, n =>
    let len := daysInMonth y m
    if len < n then monthLoop fuel y (m + 1) (n - len) else (m, n)

/-- Inverse of `toOrdinal` (Python `date.fromordinal`). -/
def fromOrdinal (n : Nat) : Nat × Nat × Nat :=
  let yd := yearLoop n 1 n
  let md := monthLoop 12 yd.1 1 yd.2
  (yd.1, md.1, md.2)

/-- Zero-pad to two digits. -/
def pad2 (n : Nat) : String := if n < 10 then "0" ++ toString n else toString n

/-- Zero-pad to four digits. -/
def pad4 (n : Nat) : String :=
  if n < 10 then "000" ++ toString n
  else if n < 100 then "00" ++ toString n
  else if n < 1000 then "0" ++ toString n
  else toString n

/-- Python `str(date.fromordinal n)`: ISO `YYYY-MM-DD`. -/
def formatDate (n : Nat) : String :=
  let ymd := fromOrdinal n
  pad4 ymd.1 ++ "-" ++ pad2 ymd.2.1 ++ "-" ++ pad2 ymd.2.2

/-- Numeric value of a decimal digit character. -/
def digitVal (c : Char) : Nat := c.toNat - 48

/-- Parse one or two leading decimal digits (greedy), returning the value and
the rest; models the `%m` / `%d` fields of `strptime`. -/
def parse2 : List Char → Option (Nat × List Char)
  | c1 :: c2 :: rest =>
    if c1.isDigit then
      if c2.isDigit then some (10 * digitVal c1 + digitVal c2, rest)
      else some (digitVal c1, c2 :: rest)
    else none
  | [c1] => if c1.isDigit then some (digitVal c1, []) else none
  | [] => none

/-- Python `datetime.strptime(s, "%Y-%m-%d").date().toordinal()`, `none` on
`ValueError`: exactly four digits of year, one or two digits of month and day,
nothing left over, and the calendar-validity checks of the `date` constructor. -/
def parseDate (s : String) : Option Nat :=
  match s.data with
  | y1 :: y2 :: y3 :: y4 :: '-' :: rest =>
    if y1.isDigit && y2.isDigit && y3.isDigit && y4.isDigit then
      let y := 1000 * digitVal y1 + 100 * digitVal y2 + 10 * digitVal y3 + digitVal y4
      match parse2 rest with
      | some (m, '-' :: rest2) =>
        match parse2 rest2 with
        | some (d, []) =>
          if 1 ≤ y && 1 ≤ m && m ≤ 12 && 1 ≤ d && d ≤ daysInMonth y m then
            some (toOrdinal y m d)
          else none
        | _ => none
      | _ => none
    else none
  | _ => none

/-! ## `empower`: authorization-date extension (src/main.py lines 484-509)

The ambient `datetime.now().date()` is the explicit `today` parameter
(an ordinal). -/

/-- `date.max.toordinal()`: Python dates stop at 9999-12-31. -/
def DATE_MAX_ORDINAL : Nat := 3652059

/-- Python `d + timedelta(days = k)` for a date ordinal `d` and `k ≥ 0`:
`none` models the `OverflowError` raised when the result would pass
`date.max` (a `timedelta` whose day count itself overflows also raises
`OverflowError`, and such counts always exceed this bound too). -/
def dateAddDays (d k : Nat) : Option Nat :=
  if d + k ≤ DATE_MAX_ORDINAL then some (d + k) else none

/-- `empower(empowertime, me_as_int)` of the source: compute the new
authorization expiry date string.  A `none` result models an exception
escaping the function.  `strptime` failure (`ValueError`) is caught and falls
back to today plus the added days; an `OverflowError` from the date addition
is caught by the `except Exception` arm, whose handler recomputes today plus
the added days — in the branches that already added to today this raises
again, and an `OverflowError` raised inside either handler propagates (the
sibling `except` arms do not apply to a handler), so every overflowing
today-based addition yields `none`. -/
def empower (empowertime : Option String) (me_as_int : Nat) (today : Nat) : Option String :=
  let days_to_add := me_as_int * 30
  if pyTruthyStr empowertime = false then
    (dateAddDays today days_to_add).map formatDate
  else
    match parseDate (empowertime.getD "") with
    | none => (dateAddDays today days_to_add).map formatDate
    | some empower_date =>
      if empower_date ≤ today then (dateAddDays today days_to_add).map formatDate
      else
        match dateAddDays empower_date days_to_add with
        | some target_date => some (formatDate target_date)
        | none => (dateAddDays today days_to_add).map formatDate

/-! ## Phone masking (src/main.py lines 372, 516, ...): `phone[:3] + "****" + phone[7:]` -/

/-- The masking expression used throughout the source. Python slicing works on
code points, hence `List Char` take/drop. -/
def maskPhone (phone : String) : String :=
  String.mk (phone.data.take 3) ++ "****" ++ String.mk (phone.data.drop 7)

/-! ## Byte-level string encodings -/

/-- UTF-8 encoding of one code point, as byte values. -/
def utf8Char (c : Char) : List Nat :=
  let n := c.toNat
  if n < 0x80 then [n]
  else if n < 0x800 then
    [0xC0 ||| (n >>> 6), 0x80 ||| (n &&& 0x3F)]
  else if n < 0x10000 then
    [0xE0 ||| (n >>> 12), 0x80 ||| ((n >>> 6) &&& 0x3F), 0x80 ||| (n &&& 0x3F)]
  else
    [0xF0 ||| (n >>> 18), 0x80 ||| ((n >>> 12) &&& 0x3F),
     0x80 ||| ((n >>> 6) &&& 0x3F), 0x80 ||| (n &&& 0x3F)]

/-- Python `s.encode('utf-8')` as a list of byte values. -/
def utf8Encode (s : String) : List Nat :=
  s.data.foldr (fun c acc => utf8Char c ++ acc) []

/-- Uppercase hexadecimal digit. -/
def hexUpper (n : Nat) : Char :=
  if n < 10 then Char.ofNat (48 + n) else Char.ofNat (55 + n)

/-- Lowercase hexadecimal digit. -/
def hexLower (n : Nat) : Char :=
  if n < 10 then Char.ofNat (48 + n) else Char.ofNat (87 + n)

/-- Bytes left intact by `urllib.parse.quote` with the default `safe='/'`:
ASCII letters, digits, `_.-~` and `/`. -/
def quoteSafeByte (b : Nat) : Bool :=
  (65 ≤ b && b ≤ 90) || (97 ≤ b && b ≤ 122) || (48 ≤ b && b ≤ 57) ||
  b == 95 || b == 46 || b == 45 || b == 126 || b == 47

/-- Percent-encode one byte as `urllib.parse.quote` does. -/
def quoteByte (b : Nat) : List Char :=
  if quoteSafeByte b then [Char.ofNat b]
  else ['%', hexUpper (b / 16), hexUpper (b % 16)]

/-- Python `urllib.parse.quote(s)` (default `safe='/'`). -/
def pyQuote (s : String) : String :=
  String.mk ((utf8Encode s).foldr (fun b acc => quoteByte b ++ acc) [])

/-! ## SHA-256 (Python `hashlib.sha256`) over byte lists -/

/-- Truncate to 32 bits. -/
def w32 (n : Nat) : Nat := n % 4294967296

/-- 32-bit rotate right. -/
def rotr32 (n r : Nat) : Nat := w32 ((n >>> r) ||| (n <<< (32 - r)))

/-- The 64 SHA-256 round constants. -/
def sha256K : List Nat :=
  [1116352408, 1899447441, 3049323471, 3921009573, 961987163,
   1508970993, 2453635748, 2870763221, 3624381080, 310598401,
   607225278, 1426881987, 1925078388, 2162078206, 2614888103,
   3248222580, 3835390401, 4022224774, 264347078, 604807628,
   770255983, 1249150122, 1555081692, 1996064986, 2554220882,
   2821834349, 2952996808, 3210313671, 3336571891, 3584528711,
   113926993, 338241895, 666307205, 773529912, 1294757372,
   1396182291, 1695183700, 1986661051, 2177026350, 2456956037,
   2730485921, 2820302411, 3259730800, 3345764771, 3516065817,
   3600352804, 4094571909, 275423344, 430227734, 506948616,
   659060556, 883997877, 958139571, 1322822218, 1537002063,
   1747873779, 1955562222, 2024104815, 2227730452, 2361852424,
   2428436474, 2756734187, 3204031479, 3329325298]

/-- SHA-256 message padding: append `0x80`, zeros, and the 64-bit big-endian
bit length, to a multiple of 64 bytes. -/
def sha256Pad (msg : List Nat) : List Nat :=
  let bitLen := msg.length * 8
  let padZeros := (119 - msg.length % 64) % 64
  msg ++ [0x80] ++ List.replicate padZeros 0 ++
    [w32 (bitLen >>> 56) % 256, (bitLen >>> 48) % 256, (bitLen >>> 40) % 256, (bitLen >>> 32) % 256,
     (bitLen >>> 24) % 256, (bitLen >>> 16) % 256, (bitLen >>> 8) % 256, bitLen % 256]

/-- Group a byte list into big-endian 32-bit words. -/
def bytesToWords : List Nat → List Nat
  | b0 :: b1 :: b2 :: b3 :: rest => (((b0 * 256 + b1) * 256 + b2) * 256 + b3) :: bytesToWords rest
  | _ => []

/-- Extend 16 schedule words to 64; `acc` holds the schedule in reverse. -/
def sha256Extend : Nat → List Nat → List Nat
  | 0, acc => acc
  | n + 1, acc =>
    let wm2 := acc.getD 1 0
    let wm7 := acc.getD 6 0
    let wm15 := acc.getD 14 0
    let wm16 := acc.getD 15 0
    let s0 := Nat.xor (Nat.xor (rotr32 wm15 7) (rotr32 wm15 18)) (wm15 >>> 3)
    let s1 := Nat.xor (Nat.xor (rotr32 wm2 17) (rotr32 wm2 19)) (wm2 >>> 10)
    sha256Extend n (w32 (wm16 + s0 + wm7 + s1) :: acc)

/-- SHA-256 working state: the eight 32-bit registers. -/
structure Sha256St where
  a : Nat
  b : Nat
  c : Nat
  d : Nat
  e : Nat
  f : Nat
  g : Nat
  h : Nat
deriving Repr, DecidableEq

/-- One SHA-256 compression round. -/
def sha256Round (st : Sha256St) (kw : Nat × Nat) : Sha256St :=
  let S1 := Nat.xor (Nat.xor (rotr32 st.e 6) (rotr32 st.e 11)) (rotr32 st.e 25)
  let ch := Nat.xor (Nat.land st.e st.f) (Nat.land (Nat.xor st.e 0xFFFFFFFF) st.g)
  let temp1 := w32 (st.h + S1 + ch + kw.1 + kw.2)
  let S0 := Nat.xor (Nat.xor (rotr32 st.a 2) (rotr32 st.a 13)) (rotr32 st.a 22)
  let maj := Nat.xor (Nat.xor (Nat.land st.a st.b) (Nat.land st.a st.c)) (Nat.land st.b st.c)
  let temp2 := w32 (S0 + maj)
  ⟨w32 (temp1 + temp2), st.a, st.b, st.c, w32 (st.d + temp1), st.e, st.f, st.g⟩

/-- Process one 64-byte chunk. -/
def sha256Chunk (st : Sha256St) (chunk : List Nat) : Sha256St :=
  let ws := (sha256Extend 48 (bytesToWords chunk).reverse).reverse
  let r := (sha256K.zip ws).foldl (fun s kw => sha256Round s (kw.2, kw.1)) st
  ⟨w32 (st.a + r.a), w32 (st.b + r.b), w32 (st.c + r.c), w32 (st.d + r.d),
   w32 (st.e + r.e), w32 (st.f + r.f), w32 (st.g + r.g), w32 (st.h + r.h)⟩

/-- Split a byte list into 64-byte chunks. -/
def chunks64 : List Nat → List (List Nat)
  | [] => []
  | a :: t => (a :: t).take 64 :: chunks64 (t.drop 63)
termination_by l => l.length
decreasing_by simp [List.length_drop]; omega

/-- A 32-bit word as eight lowercase hex characters. -/
def wordHex (n : Nat) : List Char :=
  [hexLower ((n >>> 28) % 16), hexLower ((n >>> 24) % 16), hexLower ((n >>> 20) % 16),
   hexLower ((n >>> 16) % 16), hexLower ((n >>> 12) % 16), hexLower ((n >>> 8) % 16),
   hexLower ((n >>> 4) % 16), hexLower (n % 16)]

/-- `hashlib.sha256(bytes).hexdigest()`. -/
def sha256hex (msg : List Nat) : String :=
  let init : Sha256St :=
    ⟨1779033703, 3144134277, 1013904242, 2773480762,
     1359893119, 2600822924, 528734635, 1541459225⟩
  let fin := (chunks64 (sha256Pad msg)).foldl sha256Chunk init
  String.mk (wordHex fin.a ++ wordHex fin.b ++ wordHex fin.c ++ wordHex fin.d ++
             wordHex fin.e ++ wordHex fin.f ++ wordHex fin.g ++ wordHex fin.h)

/-! ## Vendor request signing (src/main.py lines 298-316) -/

def APP_SECRET : String := "xl8v4s/5qpBLvN+8CzFx7vVjy31NgXXcedU7G0QpOMM="
def CHANNEL : String := "android_app"
def VERSION : String := "1.57.0"

/-- `PangGuaiClient._calculate_sign`: the f-string it hashes, segment by
segment.  Between the channel and `tamp=` the source has the single code point
U+00D7 (multiplication sign), not `&times`-anything. -/
def signData (timestamp_ms : Nat) (token url_path : String) : String :=
  "appSecret=" ++ APP_SECRET ++ "&channel=" ++ CHANNEL ++ "×tamp=" ++ toString timestamp_ms ++
    "&token=" ++ token ++ "&version=" ++ VERSION ++ "&" ++ url_path

/-- `PangGuaiClient._calculate_sign`: SHA-256 hex digest of the UTF-8 bytes of
the signing string. -/
def calculate_sign (timestamp_ms : Nat) (token url_path : String) : String :=
  sha256hex (utf8Encode (signData timestamp_ms token url_path))

/-! ## Qinglong panel environment variables

An env record as the client sees it (a JSON dict).  The fields the source
reads are `id` / `_id` (either may be absent), `name`, `value`, `remarks`;
a missing `name` or `remarks` is modelled as `""` (the source reads
`env.get('remarks', '')` and compares `env.get('name')` against a fixed
non-absent name, so a missing key behaves exactly like `""`). -/
structure Env where
  envId : Option Nat
  altId : Option Nat
  name : String
  value : String
  remarks : String
deriving Repr, DecidableEq

/-- Python `env.get('id') or env.get('_id')`: `None` and `0` are falsy. -/
def pyOrId (a b : Option Nat) : Option Nat :=
  match a with
  | some n => if n = 0 then b else some n
  | none => b

/-- Loop body of `QLClient.get_env_by_remark_and_name` (src/main.py 224-250):
`pm` is the running `phone_match_env` (the source overwrites it on every phone
match, so the last one wins). -/
def envScan (name account : String) (phone : Option String) :
    List Env → Option Env → Option Env
  | [], pm => pm
  | env :: rest, pm =>
    if env.name != name || env.remarks == "" then envScan name account phone rest pm
    else if pyIn account env.remarks then some env
    else if (match phone with
             | some p => p != "" && pyIn ("胖乖:" ++ p) env.remarks
             | none => false) then
      envScan name account phone rest (some env)
    else envScan name account phone rest pm

/-- `QLClient.get_env_by_remark_and_name` applied to an already-fetched env
list (the HTTP fetch is the explicit `envs` argument). -/
def get_env_by_remark_and_name (envs : List Env) (name account : String)
    (phone : Option String) : Option Env :=
  envScan name account phone envs none

/-- Modelled from the spec: the panel state owned by the Qinglong server
(src has only the HTTP client; §6 of the spec describes the open/envs API).
`envs` is the stored variable list, `nextId` the autoincrement counter of the
panel (panel ids are positive). -/
structure PanelState where
  envs : List Env
  nextId : Nat
deriving Repr, DecidableEq

/-- Modelled from the spec: `POST open/envs` signals a duplicate-value
conflict (spec §4.3) when a stored variable already holds the same value —
`QLClient.add_env` pattern-matches the "value must be unique" message and
returns `None`, leaving the panel unchanged; otherwise the panel creates the
variable with a fresh positive id and returns it (`add_env` returns
`result['data'][0]`). -/
def panelAddEnv (p : PanelState) (name value remarks : String) : PanelState × Option Env :=
  if p.envs.any (fun e => e.value == value) then (p, none)
  else
    let e : Env := ⟨some (p.nextId + 1), none, name, value, remarks⟩
    (⟨p.envs ++ [e], p.nextId + 1⟩, some e)

/-- Modelled from the spec: `PUT open/envs` updates the variable with the
given id in place and returns it (`QLClient.update_env` returns the data on
success, `none` if no such variable exists). -/
def panelUpdateEnv (p : PanelState) (envId : Nat) (name value remarks : String) :
    PanelState × Option Env :=
  if (p.envs.filter (fun e => e.envId == some envId)).isEmpty then (p, none)
  else
    (⟨p.envs.map (fun e =>
        if e.envId == some envId then { e with name := name, value := value, remarks := remarks }
        else e),
      p.nextId⟩,
     some ⟨some envId, none, name, value, remarks⟩)

/-- The remark string `QLClient.add_or_update_env` writes. -/
def remarkStr (phone user_id auth_date : String) : String :=
  "胖乖:" ++ phone ++ "丨用户:" ++ user_id ++ "丨授权时间:" ++ auth_date ++ "丨胖乖管理"

/-- `QLClient.add_or_update_env` (src/main.py 253-294) against the modelled
panel: find by account/phone remark, then update in place or add; on a failed
add, re-query and treat presence as success.  Returns the new panel state and
the boolean result. -/
def add_or_update_env (p : PanelState) (osname value account phone user_id auth_date : String) :
    PanelState × Bool :=
  let existing := get_env_by_remark_and_name p.envs osname account (some phone)
  let quoted_value := pyQuote value
  let remarks := remarkStr phone user_id auth_date
  match existing with
  | some env =>
    match pyOrId env.envId env.altId with
    | none => (p, false)
    | some env_id =>
      if env_id = 0 then (p, false)
      else
        let pu := panelUpdateEnv p env_id osname quoted_value remarks
        (pu.1, pu.2.isSome)
  | none =>
    let pa := panelAddEnv p osname quoted_value remarks
    match pa.2 with
    | some _ => (pa.1, true)
    | none =>
      match get_env_by_remark_and_name pa.1.envs osname account (some phone) with
      | some _ => (pa.1, true)
      | none => (pa.1, false)

/-! ## Qinglong OAuth token cache (`QLClient._get_token`, src/main.py 117-144)

`time.time()` is the explicit `now` parameter (seconds); the token-endpoint
HTTP response is the explicit `resp` parameter (`none` models a network
error / non-2xx / malformed response, all of which the source turns into a
`None` result). -/

/-- Response body of `GET open/auth/token`. -/
structure TokenData where
  token : Option String
  expiration : Option Int
deriving Repr, DecidableEq

/-- Envelope of the token endpoint; `data = none` models a missing or
non-dict `data` field. -/
structure TokenResp where
  code : Int
  data : Option TokenData
deriving Repr, DecidableEq

/-- The client-side cache state (`_token`, `_token_expires_at`). -/
structure QLState where
  cachedToken : Option String
  expiresAt : Int
deriving Repr, DecidableEq

/-- Result of one `_get_token` call: the returned token, the new cache state,
and whether a token-exchange request was issued. -/
structure GetTokenResult where
  result : Option String
  st : QLState
  exchanged : Bool
deriving Repr, DecidableEq

/-- `QLClient._get_token`. -/
def ql_get_token (st : QLState) (now : Int) (resp : Option TokenResp) : GetTokenResult :=
  if pyTruthyStr st.cachedToken && decide (st.expiresAt > now + 300) then
    ⟨st.cachedToken, st, false⟩
  else
    match resp with
    | some r =>
      match r.data with
      | some d =>
        if r.code = 200 && d.token.isSome then
          let tok := d.token.getD ""
          ⟨some tok, ⟨some tok, now + ((d.expiration.getD 86400) - 300)⟩, true⟩
        else ⟨none, st, true⟩
      | none => ⟨none, st, true⟩
    | none => ⟨none, st, true⟩

/-! ## Vendor client `PangGuaiClient` (src/main.py 297-460)

The HTTP responses are explicit parameters.  `none` models the (in practice
unreachable) absence of a response dict, which the source guards with
`if result`. -/

/-- `data` of the `user/info` response. -/
structure InfoData where
  phone : Option String
  userId : Option Int
deriving Repr, DecidableEq

/-- Envelope of `user/info`; `data = none` models a missing `data` key. -/
structure InfoResp where
  code : Int
  data : Option InfoData
deriving Repr, DecidableEq

/-- Python `str(x)` on an optional integer: `str(None) = "None"` (truthy!). -/
def pyStrOptInt : Option Int → String
  | none => "None"
  | some n => toString n

/-- `PangGuaiClient.verify_token` (src/main.py 361-379): returns
`(phone, account_id, display_phone)` or `none`. -/
def verify_token (resp : Option InfoResp) : Option (String × String × String) :=
  match resp with
  | none => none
  | some r =>
    if r.code = 0 && r.data.isSome then
      let d := r.data.getD ⟨none, none⟩
      let phone := d.phone.getD ""
      let account_id := pyStrOptInt d.userId
      if pyTruthyStr d.phone && account_id != "" then
        some (phone, account_id, maskPhone phone)
      else none
    else none

/-- `data` of the `user/reg` response. -/
structure RegData where
  token : Option String
deriving Repr, DecidableEq

/-- Envelope of `user/reg`. -/
structure RegResp where
  code : Int
  data : Option RegData
deriving Repr, DecidableEq

/-- `PangGuaiClient.login_with_sms` (src/main.py 393-415): the `user/reg`
response and the `user/info` response that the follow-up `verify_token` call
would receive are the inputs; the phone and code only influence those.
Returns `(phone, account_id, token, display_phone)` or `none`. -/
def login_with_sms (regResp : Option RegResp) (infoResp : Option InfoResp) :
    Option (String × String × String × String) :=
  match regResp with
  | none => none
  | some r =>
    if r.code = 0 && r.data.isSome then
      let tokenOpt := (r.data.getD ⟨none⟩).token
      if pyTruthyStr tokenOpt then
        let token := tokenOpt.getD ""
        match verify_token infoResp with
        | some v => some (v.1, v.2.1, token, v.2.2)
        | none => none
      else none
    else none

/-- The `amount` field of one point-grant record: absent (defaulted to `0`),
a value `int()` rejects (`ValueError`, record skipped), or an integer. -/
inductive AmountVal where
  | missing
  | bad
  | num (n : Int)
deriving Repr, DecidableEq

/-- One record of `integralRecord/pageList`. -/
structure IntegralItem where
  receivedTime : String
  amount : AmountVal
deriving Repr, DecidableEq

/-- `data` of `integralRecord/pageList` (a missing `items` key defaults
to `[]`). -/
structure IntegralData where
  items : List IntegralItem
deriving Repr, DecidableEq

/-- Envelope of `integralRecord/pageList`. -/
structure IntegralResp where
  code : Int
  data : Option IntegralData
deriving Repr, DecidableEq

/-- `data` of `user/balance` (missing keys default to `0`). -/
structure BalanceData where
  balance : Option Int
  integral : Option Int
deriving Repr, DecidableEq

/-- Envelope of `user/balance`. -/
structure BalanceResp where
  code : Int
  data : Option BalanceData
deriving Repr, DecidableEq

/-- The dictionary `get_account_info` returns. -/
structure AccountInfo where
  balance : Int
  integral : Int
  today_integral : Int
deriving Repr, DecidableEq

/-- One iteration of the `today_integral` accumulation loop of
`get_account_info` (src/main.py 446-452): records whose `receivedTime` is
non-empty and starts with today's date contribute `int(amount)`, a missing
`amount` defaults to `0`, and a `ValueError` from `int()` skips the record. -/
def integralStep (today : String) (acc : Int) (it : IntegralItem) : Int :=
  if it.receivedTime != "" && pyStartsWith it.receivedTime today then
    match it.amount with
    | .missing => acc + 0
    | .bad => acc
    | .num n => acc + n
  else acc

/-- The `today_integral` accumulation loop of `get_account_info`
(src/main.py 442-452). -/
def todayIntegralFold (items : List IntegralItem) (today : String) : Int :=
  items.foldl (integralStep today) 0

/-- `PangGuaiClient.get_account_info` (src/main.py 417-460): the balance and
points-record responses are the inputs; `today` is
`datetime.now().strftime('%Y-%m-%d')`. -/
def get_account_info (balanceResp : Option BalanceResp) (integralResp : Option IntegralResp)
    (today : String) : Option AccountInfo :=
  match balanceResp with
  | none => none
  | some br =>
    if br.code = 0 && br.data.isSome then
      let bd := br.data.getD ⟨none, none⟩
      let today_integral :=
        match integralResp with
        | some ir =>
          if ir.code = 0 && ir.data.isSome then
            todayIntegralFold (ir.data.getD ⟨[]⟩).items today
          else 0
        | none => 0
      some ⟨bd.balance.getD 0, bd.integral.getD 0, today_integral⟩
    else none

/-! ## Scheduled sweep `scheduled_check` (src/main.py 1576-1656)

The store buckets, the vendor `user/info` responses per token, today's date
and the one-shot env listing are explicit parameters; the observable actions
(push notifications, panel deletions) are returned as an event list. -/

/-- An observable action of the sweep. -/
inductive Event where
  | notify (user account msg : String)
  | deleteEnvs (account : String) (ids : List Nat)
deriving Repr, DecidableEq

/-- The account an event concerns. -/
def eventAccount : Event → String
  | .notify _ a _ => a
  | .deleteEnvs a _ => a

/-- The `ids_to_delete` computation the sweep (and the other deletion sites)
performs over the env listing for one account. -/
def envIdsFor (envs : List Env) (osname account : String) : List Nat :=
  envs.filterMap (fun e =>
    if e.name == osname && pyIn account e.remarks then
      match pyOrId e.envId e.altId with
      | some i => if i == 0 then none else some i
      | none => none
    else none)

/-- The body of the per-account loop of `scheduled_check`. -/
def checkAccount (tokens auths : String → Option String) (infoFor : String → Option InfoResp)
    (today : Nat) (envsOpt : Option (List Env)) (osname user account : String) : List Event :=
  let tokenOpt := tokens account
  if pyTruthyStr tokenOpt = false then
    [Event.notify user account "Token 丢失，请重新登录。"]
  else
    let token := tokenOpt.getD ""
    match verify_token (infoFor token) with
    | none =>
      Event.notify user account "Token 已失效，请重新登录。" ::
        (match envsOpt with
         | some envs =>
           let ids := envIdsFor envs osname account
           if ids.isEmpty then [] else [Event.deleteEnvs account ids]
         | none => [])
    | some _ =>
      let authOpt := auths account
      if pyTruthyStr authOpt = false then []
      else
        match parseDate (authOpt.getD "") with
        | none => []
        | some auth_dt =>
          if today ≤ auth_dt then []
          else
            Event.notify user account ("授权已于 " ++ authOpt.getD "" ++ " 过期，请及时续费。") ::
              (match envsOpt with
               | some envs =>
                 let ids := envIdsFor envs osname account
                 if ids.isEmpty then [] else [Event.deleteEnvs account ids]
               | none => [])

/-- Inner loop over one user's (deduplicated) accounts, threading the
`checked_accounts` set. -/
def sweepUser (f : String → List Event) : List String → List String → List Event × List String
  | [], checked => ([], checked)
  | a :: rest, checked =>
    if a ∈ checked then sweepUser f rest checked
    else
      let r := sweepUser f rest (a :: checked)
      (f a ++ r.1, r.2)

/-- Outer loop over the users bucket. -/
def sweepGo (f : String → String → List Event) :
    List (String × List String) → List String → List Event
  | [], _ => []
  | (u, accs) :: rest, checked =>
    let r := sweepUser (f u) (pyDedup accs) checked
    r.1 ++ sweepGo f rest r.2

/-- `scheduled_check`: `users` is the decoded users bucket (chat user to
account-id list), `tokens`/`auths` the other buckets, `infoFor` maps a vendor
token to the `user/info` response its verification would receive, `envsOpt`
the result of the one-shot `get_envs()` call. -/
def scheduled_check (users : List (String × List String)) (tokens auths : String → Option String)
    (infoFor : String → Option InfoResp) (today : Nat) (envsOpt : Option (List Env))
    (osname : String) : List Event :=
  sweepGo (fun u a => checkAccount tokens auths infoFor today envsOpt osname u a) users []

/-! ## Shared lemmas -/

/-- String concatenation is associative. -/
theorem strAppendAssoc (a b c : String) : a ++ b ++ c = a ++ (b ++ c) := by
  apply String.ext
  show (a.data ++ b.data) ++ c.data = a.data ++ (b.data ++ c.data)
  exact List.append_assoc _ _ _

/-- A string with a successful `strptime` parse is not empty. -/
theorem parseDate_ne_empty {s : String} {d : Nat} (h : parseDate s = some d) : s ≠ "" := by
  intro hs
  subst hs
  simp [parseDate] at h

/-! ## C1: `empower` adds 30·N days to the existing date when unexpired,
otherwise to today — within the range of Python dates -/

/-- C1 counterexample: with the stored date 9999-12-31 (ordinal 3652059),
N = 1 and today = 2025-01-01 (ordinal 739252), the stored date is strictly in
the future, yet `empower` does not return the stored date plus 30 days
(which would pass `date.max`): the addition raises `OverflowError`, the
`except Exception` arm takes over, and today plus 30 days — 2025-01-31 —
comes back instead. -/
theorem empower_overflow_counterexample :
    parseDate "9999-12-31" = some 3652059 ∧ (739252 : Nat) < 3652059 ∧
    empower (some "9999-12-31") 1 739252 = some "2025-01-31" ∧
    parseDate "2025-01-31" = some (739252 + 30 * 1) ∧
    739252 + 30 * 1 ≠ 3652059 + 30 * 1 := by
  refine ⟨by decide, by decide, by decide, by decide, by decide⟩

/-- C1 (amended): for N ≥ 1 months, `empower` returns today's date plus 30·N
days when the stored expiry is absent or parses to a date on or before today,
and the stored date plus 30·N days when it parses to a date strictly in the
future — provided the respective sum stays within Python's date range
(ordinal at most 3652059 = 9999-12-31); a future date whose extension passes
that bound falls to the `OverflowError` handler, which returns today plus
30·N days (itself `none` — a propagated exception — past the bound). -/
theorem empower_extension_correct (N today : Nat) (hN : 1 ≤ N) (s : String) (d : Nat) :
    (today + 30 * N ≤ DATE_MAX_ORDINAL →
      empower none N today = some (formatDate (today + 30 * N))) ∧
    (parseDate s = some d → d ≤ today → today + 30 * N ≤ DATE_MAX_ORDINAL →
      empower (some s) N today = some (formatDate (today + 30 * N))) ∧
    (parseDate s = some d → today < d → d + 30 * N ≤ DATE_MAX_ORDINAL →
      empower (some s) N today = some (formatDate (d + 30 * N))) ∧
    (parseDate s = some d → today < d → DATE_MAX_ORDINAL < d + 30 * N →
      empower (some s) N today = (dateAddDays today (30 * N)).map formatDate) := by
  refine ⟨?_, ?_, ?_, ?_⟩
  · intro h
    have h2 : today + N * 30 ≤ DATE_MAX_ORDINAL := by omega
    simp [empower, pyTruthyStr, dateAddDays, h2, Nat.mul_comm]
  · intro hp hle h
    have hs : s ≠ "" := parseDate_ne_empty hp
    have h2 : today + N * 30 ≤ DATE_MAX_ORDINAL := by omega
    simp [empower, pyTruthyStr, hs, hp, hle, dateAddDays, h2, Nat.mul_comm]
  · intro hp hlt h
    have hs : s ≠ "" := parseDate_ne_empty hp
    have h2 : d + N * 30 ≤ DATE_MAX_ORDINAL := by omega
    simp [empower, pyTruthyStr, hs, hp, Nat.not_le.mpr hlt, dateAddDays, h2, Nat.mul_comm]
  · intro hp hlt h
    have hs : s ≠ "" := parseDate_ne_empty hp
    have h2 : ¬ (d + N * 30 ≤ DATE_MAX_ORDINAL) := by omega
    simp [empower, pyTruthyStr, hs, hp, Nat.not_le.mpr hlt, dateAddDays, h2, Nat.mul_comm]

/-- Witness for C1 at 2025-01-01 (ordinal 739252) with stored date
2025-01-10 (ordinal 739261) and N = 1. -/
theorem empower_extension_correct_witness :
    1 ≤ 1 ∧ parseDate "2025-01-10" = some 739261 ∧ 739252 < 739261 ∧
      739261 + 30 * 1 ≤ DATE_MAX_ORDINAL ∧
      empower (some "2025-01-10") 1 739252 = some (formatDate (739261 + 30 * 1)) ∧
      empower (some "2025-01-10") 1 739252 = some "2025-02-09" :=
  ⟨by decide, by decide, by decide, by decide,
   (empower_extension_correct 1 739252 (by decide) "2025-01-10" 739261).2.2.1
     (by decide) (by decide) (by decide),
   by decide⟩

/-! ## C10: a malformed non-empty expiry string behaves like an absent one -/

/-- C10 counterexample: `empower` can raise.  With the malformed stored
string "2025/01/10" and N = 1000000000 (the admin bulk path only checks
`months > 0`), the `ValueError` handler computes today plus 30·N days, the
`timedelta`/date addition overflows, and the `OverflowError` raised inside
the handler propagates out of `empower` (modelled as `none`). -/
theorem empower_malformed_overflow_counterexample :
    ("2025/01/10" : String) ≠ "" ∧ parseDate "2025/01/10" = none ∧
    empower (some "2025/01/10") 1000000000 739252 = none := by
  refine ⟨by decide, by decide, by decide⟩

/-- C10 (amended): for any non-empty expiry string that does not parse as
`YYYY-MM-DD`, `empower` discards the malformed value and behaves exactly as
for an absent date: today plus 30·N days when that sum is within Python's
date range, and a propagated `OverflowError` (`none`) — not a preserved
malformed value — otherwise. -/
theorem empower_malformed_date (N today : Nat) (s : String) (hs : s ≠ "")
    (hp : parseDate s = none) :
    empower (some s) N today = (dateAddDays today (30 * N)).map formatDate ∧
    empower (some s) N today = empower none N today ∧
    (today + 30 * N ≤ DATE_MAX_ORDINAL →
      empower (some s) N today = some (formatDate (today + 30 * N))) := by
  refine ⟨?_, ?_, ?_⟩
  · simp [empower, pyTruthyStr, hs, hp, dateAddDays, Nat.mul_comm]
  · simp [empower, pyTruthyStr, hs, hp]
  · intro h
    have h2 : today + N * 30 ≤ DATE_MAX_ORDINAL := by omega
    simp [empower, pyTruthyStr, hs, hp, dateAddDays, h2, Nat.mul_comm]

/-- Witness for C10 with the malformed string "2025/01/10". -/
theorem empower_malformed_date_witness :
    ("2025/01/10" : String) ≠ "" ∧ parseDate "2025/01/10" = none ∧
      739252 + 30 * 1 ≤ DATE_MAX_ORDINAL ∧
      empower (some "2025/01/10") 1 739252 = some (formatDate (739252 + 30 * 1)) ∧
      empower (some "2025/01/10") 1 739252 = some "2025-01-31" :=
  ⟨by decide, by decide, by decide,
   (empower_malformed_date 1 739252 "2025/01/10" (by decide) (by decide)).2.2 (by decide),
   by decide⟩

/-! ## C8: phone masking -/

/-- C8: on an 11-digit phone string the masking expression produces the first
three digits, the literal `****`, and the digits from (1-based) position 8
onward, which are exactly the last four digits. -/
theorem maskPhone_spec (s : String) (hlen : s.data.length = 11)
    (hdig : ∀ c ∈ s.data, c.isDigit) :
    maskPhone s =
      String.mk (s.data.take 3) ++ "****" ++ String.mk (s.data.drop (s.data.length - 4)) ∧
    (s.data.drop (s.data.length - 4)).length = 4 := by
  constructor
  · simp [maskPhone, hlen]
  · simp [hlen]

/-- Witness for C8 on the phone 13800138000. -/
theorem maskPhone_spec_witness :
    (maskPhone "13800138000" =
        String.mk ("13800138000".data.take 3) ++ "****" ++
          String.mk ("13800138000".data.drop ("13800138000".data.length - 4)) ∧
      ("13800138000".data.drop ("13800138000".data.length - 4)).length = 4) ∧
    maskPhone "13800138000" = "138****8000" :=
  ⟨maskPhone_spec "13800138000" (by decide) (by decide), by decide⟩

/-! ## C9: the vendor signature string, U+00D7 glyph included -/

/-- C9: the computed signature is the SHA-256 hex digest of the UTF-8 bytes of
`appSecret=<secret>&channel=<channel>×tamp=<ms>&token=<t>&version=<version>&<p>`
where the character before `tamp` is the single code point U+00D7
(multiplication sign, UTF-8 bytes C3 97), not an ASCII `&timestamp`. -/
theorem calculate_sign_spec (timestamp_ms : Nat) (token url_path : String) :
    calculate_sign timestamp_ms token url_path =
      sha256hex (utf8Encode ("appSecret=" ++ APP_SECRET ++ "&channel=" ++ CHANNEL ++
        (String.mk [Char.ofNat 0xD7] ++ "tamp=") ++ toString timestamp_ms ++ "&token=" ++ token ++
        "&version=" ++ VERSION ++ "&" ++ url_path)) ∧
    utf8Encode (String.mk [Char.ofNat 0xD7]) = [0xC3, 0x97] ∧
    (String.mk [Char.ofNat 0xD7] ++ "tamp=") ≠ "&timestamp=" := by
  refine ⟨?_, by decide, by decide⟩
  have h : ("×tamp=" : String) = String.mk [Char.ofNat 0xD7] ++ "tamp=" := by decide
  unfold calculate_sign signData
  rw [h]

/-- C4: `login_with_sms` reports success (phone, account id, token, masked
phone) only if the `user/reg` response has success code 0 and carries a
non-empty token AND the immediate `verify_token` call on that fresh token
also succeeds; if verification fails, the result is absent even though the
vendor reported a successful login. -/
theorem login_with_sms_requires_verification (regResp : Option RegResp)
    (infoResp : Option InfoResp) :
    (∀ res, login_with_sms regResp infoResp = some res →
      ∃ r d t, regResp = some r ∧ r.code = 0 ∧ r.data = some d ∧ d.token = some t ∧ t ≠ "" ∧
        ∃ v, verify_token infoResp = some v ∧ res = (v.1, v.2.1, t, v.2.2)) ∧
    (verify_token infoResp = none → login_with_sms regResp infoResp = none) := by
  constructor
  · intro res h
    cases regResp with
    | none => simp [login_with_sms] at h
    | some r =>
      cases hd : r.data with
      | none => simp [login_with_sms, hd] at h
      | some d =>
        cases ht : d.token with
        | none => simp [login_with_sms, hd, ht, pyTruthyStr] at h
        | some t =>
          by_cases hc : r.code = 0
          · by_cases htt : t = ""
            · subst htt
              simp [login_with_sms, hd, ht, pyTruthyStr] at h
            · cases hv : verify_token infoResp with
              | none => simp [login_with_sms, hd, ht, hc, hv, pyTruthyStr, htt] at h
              | some v =>
                refine ⟨r, d, t, rfl, hc, hd, ht, htt, v, rfl, ?_⟩
                simp [login_with_sms, hd, ht, hc, hv, pyTruthyStr, htt] at h
                exact h.symm
          · simp [login_with_sms, hc] at h
  · intro hv
    cases regResp with
    | none => rfl
    | some r =>
      cases hd : r.data with
      | none => simp [login_with_sms, hd]
      | some d =>
        cases ht : d.token with
        | none => simp [login_with_sms, hd, ht, pyTruthyStr]
        | some t => simp [login_with_sms, hd, ht, hv, pyTruthyStr]

/-- Witness for C4: the vendor reports a successful login carrying token
"T1", but verification gets no response, so login reports absent. -/
theorem login_with_sms_requires_verification_witness :
    verify_token (none : Option InfoResp) = none ∧
      login_with_sms (some ⟨0, some ⟨some "T1"⟩⟩) none = none :=
  ⟨rfl, (login_with_sms_requires_verification (some ⟨0, some ⟨some "T1"⟩⟩) none).2 rfl⟩

/-- The summand one point-grant record contributes: a missing amount defaults
to 0, an amount `int()` rejects is skipped (contributes 0), an integer amount
contributes itself. -/
def amountInt : AmountVal → Int
  | .missing => 0
  | .bad => 0
  | .num n => n

theorem integralStep_eq (today : String) (a : Int) (x : IntegralItem) :
    integralStep today a x =
      a + (if x.receivedTime != "" && pyStartsWith x.receivedTime today then
             amountInt x.amount
           else 0) := by
  unfold integralStep
  by_cases hp : (x.receivedTime != "" && pyStartsWith x.receivedTime today) = true
  · cases hx : x.amount <;> simp [hp, hx, amountInt]
  · simp [hp]

theorem todayIntegralFold_go (today : String) (items : List IntegralItem) :
    ∀ a : Int,
      items.foldl (integralStep today) a =
        a + ((items.filter
                (fun it => it.receivedTime != "" && pyStartsWith it.receivedTime today)).map
              (fun it => amountInt it.amount)).sum := by
  induction items with
  | nil => intro a; simp
  | cons x xs ih =>
    intro a
    rw [List.foldl_cons, integralStep_eq, ih, List.filter_cons]
    by_cases hp : (x.receivedTime != "" && pyStartsWith x.receivedTime today) = true
    · simp [hp]
      omega
    · simp [hp]

/-- The accumulation loop equals a filter-map-sum. -/
theorem todayIntegralFold_eq (today : String) (items : List IntegralItem) :
    todayIntegralFold items today =
      ((items.filter
          (fun it => it.receivedTime != "" && pyStartsWith it.receivedTime today)).map
        (fun it => amountInt it.amount)).sum := by
  have h := todayIntegralFold_go today items 0
  simpa [todayIntegralFold] using h

/-- Nothing starts with a non-empty string when it is empty itself. -/
theorem pyStartsWith_empty_left {today : String} (h : today ≠ "") :
    pyStartsWith "" today = false := by
  cases hd : today.data with
  | nil => exact absurd (String.ext hd) h
  | cons c cs => simp [pyStartsWith, hd, leadMatch]

/-- C6: `get_account_info` is absent exactly when the balance call fails
(no response, non-zero code, or missing data); a failing points-record call
degrades `today_integral` to 0 without failing the call; a successful one
makes `today_integral` the sum of the integer amounts of exactly the records
whose grant timestamp starts with today's `YYYY-MM-DD` date. -/
theorem get_account_info_spec (b : Option BalanceResp) (i : Option IntegralResp)
    (today : String) (htoday : today ≠ "") :
    (get_account_info b i today = none ↔
      ¬ ∃ br bd, b = some br ∧ br.code = 0 ∧ br.data = some bd) ∧
    (∀ br bd, b = some br → br.code = 0 → br.data = some bd →
      ((¬ ∃ ir idata, i = some ir ∧ ir.code = 0 ∧ ir.data = some idata) →
          get_account_info b i today = some ⟨bd.balance.getD 0, bd.integral.getD 0, 0⟩) ∧
      (∀ ir idata, i = some ir → ir.code = 0 → ir.data = some idata →
          get_account_info b i today = some ⟨bd.balance.getD 0, bd.integral.getD 0,
            ((idata.items.filter (fun it => pyStartsWith it.receivedTime today)).map
              (fun it => amountInt it.amount)).sum⟩)) := by
  have hfilter : ∀ l : List IntegralItem,
      l.filter (fun it => it.receivedTime != "" && pyStartsWith it.receivedTime today) =
      l.filter (fun it => pyStartsWith it.receivedTime today) := by
    intro l
    apply List.filter_congr
    intro it _
    by_cases he : it.receivedTime = ""
    · simp [he, pyStartsWith_empty_left htoday]
    · simp [he]
  refine ⟨?_, ?_⟩
  · constructor
    · intro h hex
      obtain ⟨br, bd, hb, hc, hdd⟩ := hex
      subst hb
      simp [get_account_info, hc, hdd] at h
    · intro hnex
      cases b with
      | none => rfl
      | some br =>
        cases hdd : br.data with
        | none => simp [get_account_info, hdd]
        | some bd =>
          by_cases hc : br.code = 0
          · exact absurd ⟨br, bd, rfl, hc, hdd⟩ hnex
          · simp [get_account_info, hc]
  · intro br bd hb hc hdd
    subst hb
    constructor
    · intro hnex
      cases i with
      | none => simp [get_account_info, hc, hdd]
      | some ir =>
        cases hid : ir.data with
        | none => simp [get_account_info, hc, hdd, hid]
        | some idata =>
          by_cases hic : ir.code = 0
          · exact absurd ⟨ir, idata, rfl, hic, hid⟩ hnex
          · simp [get_account_info, hc, hdd, hic]
    · intro ir idata hi hic hid
      subst hi
      simp [get_account_info, hc, hdd, hic, hid, todayIntegralFold_eq, hfilter]

/-- Witness for C6: balance 10 / integral 20, three grant records of which one
is on 2025-01-06 with integer amount 5 and one has a rejected amount, so
`today_integral` is 5. -/
theorem get_account_info_spec_witness :
    ("2025-01-06" : String) ≠ "" ∧
    get_account_info (some ⟨0, some ⟨some 10, some 20⟩⟩)
        (some ⟨0, some ⟨[⟨"2025-01-06 10:00", AmountVal.num 5⟩,
                         ⟨"2025-01-05 10:00", AmountVal.num 7⟩,
                         ⟨"2025-01-06 11:00", AmountVal.bad⟩]⟩⟩) "2025-01-06" =
      some ⟨(some (10 : Int)).getD 0, (some (20 : Int)).getD 0,
        ((([⟨"2025-01-06 10:00", AmountVal.num 5⟩,
            ⟨"2025-01-05 10:00", AmountVal.num 7⟩,
            ⟨"2025-01-06 11:00", AmountVal.bad⟩] : List IntegralItem).filter
              (fun it => pyStartsWith it.receivedTime "2025-01-06")).map
          (fun it => amountInt it.amount)).sum⟩ ∧
    get_account_info (some ⟨0, some ⟨some 10, some 20⟩⟩)
        (some ⟨0, some ⟨[⟨"2025-01-06 10:00", AmountVal.num 5⟩,
                         ⟨"2025-01-05 10:00", AmountVal.num 7⟩,
                         ⟨"2025-01-06 11:00", AmountVal.bad⟩]⟩⟩) "2025-01-06" =
      some ⟨10, 20, 5⟩ :=
  ⟨by decide,
   ((get_account_info_spec _ _ _ (by decide)).2 _ _ rfl rfl rfl).2 _ _ rfl rfl rfl,
   by decide⟩

/-- Whenever the cache check fails, a token exchange is attempted. -/
theorem ql_get_token_exchanged (st : QLState) (now : Int) (resp : Option TokenResp)
    (h : ¬ st.expiresAt > now + 300) : (ql_get_token st now resp).exchanged = true := by
  have hcond : (pyTruthyStr st.cachedToken && decide (st.expiresAt > now + 300)) = false := by
    simp [h]
  unfold ql_get_token
  rw [hcond]
  rcases resp with _ | r
  · rfl
  · rcases hr : r.data with _ | d
    · simp [hr]
    · by_cases hc : (r.code = 200 && d.token.isSome) = true <;> simp [hr, hc]

/-- C5 counterexample: a token is fetched at time 0 with reported lifetime
86400 s, so the reported expiry is 86400; the call at time 86000 is earlier
than five minutes before that expiry (86000 < 86400 - 300), yet the cached
token is not returned: a fresh exchange is triggered (which here gets no
response, so the call even returns absent). -/
theorem ql_get_token_five_minute_refresh_false :
    (86000 : Int) < 0 + 86400 - 300 ∧
    (ql_get_token (ql_get_token ⟨none, 0⟩ 0 (some ⟨200, some ⟨some "T", some 86400⟩⟩)).st
        86000 none).exchanged = true ∧
    (ql_get_token (ql_get_token ⟨none, 0⟩ 0 (some ⟨200, some ⟨some "T", some 86400⟩⟩)).st
        86000 none).result = none := by
  refine ⟨by decide, rfl, rfl⟩

/-- C5 amended: the cache stores `now + (expiration - 300)` (default
expiration 86400 s) and serves the cached token while the stored deadline is
still more than 300 s away, so a refresh is triggered ten minutes — two
stacked five-minute buffers — before the reported expiry `t0 + E`: any call
strictly earlier than `t0 + E - 600` returns the cached token with no
exchange, and any call at or after `t0 + E - 600` performs an exchange. -/
theorem ql_get_token_cache_spec (t0 E t u : Int) (tok : String) (htok : tok ≠ "")
    (resp resp2 : Option TokenResp) :
    ((ql_get_token ⟨none, 0⟩ t0 (some ⟨200, some ⟨some tok, some E⟩⟩)).st =
        ⟨some tok, t0 + (E - 300)⟩) ∧
    ((ql_get_token ⟨none, 0⟩ t0 (some ⟨200, some ⟨some tok, none⟩⟩)).st =
        ⟨some tok, t0 + (86400 - 300)⟩) ∧
    (t < t0 + E - 600 →
        ql_get_token ⟨some tok, t0 + (E - 300)⟩ t resp =
          ⟨some tok, ⟨some tok, t0 + (E - 300)⟩, false⟩) ∧
    (t0 + E - 600 ≤ u → (ql_get_token ⟨some tok, t0 + (E - 300)⟩ u resp2).exchanged = true) := by
  refine ⟨rfl, rfl, ?_, ?_⟩
  · intro ht
    have hc : (t0 + (E - 300) : Int) > t + 300 := by omega
    simp [ql_get_token, pyTruthyStr, htok, hc]
  · intro hu
    exact ql_get_token_exchanged _ _ _ (by simp; omega)

/-- Witness for the amended C5 at `t0 = 0`, `E = 86400`: time 85000 is served
from cache with no exchange, time 86000 (within the last ten minutes)
triggers an exchange. -/
theorem ql_get_token_cache_spec_witness :
    (("T" : String) ≠ "") ∧ ((85000 : Int) < 0 + 86400 - 600) ∧
    ((0 : Int) + 86400 - 600 ≤ 86000) ∧
    (ql_get_token ⟨some "T", 0 + (86400 - 300)⟩ 85000 none =
      ⟨some "T", ⟨some "T", 0 + (86400 - 300)⟩, false⟩) ∧
    ((ql_get_token ⟨some "T", 0 + (86400 - 300)⟩ 86000 none).exchanged = true) :=
  ⟨by decide, by decide, by decide,
   (ql_get_token_cache_spec 0 86400 85000 86000 "T" (by decide) none none).2.2.1 (by decide),
   (ql_get_token_cache_spec 0 86400 85000 86000 "T" (by decide) none none).2.2.2 (by decide)⟩

/-! ## C3: account-id match beats phone fallback -/

theorem envScan_account (name account : String) (phone : Option String) :
    ∀ (l : List Env) (pm : Option Env) (e : Env), e ∈ l → e.name = name → e.remarks ≠ "" →
      pyIn account e.remarks = true →
      ∃ r, envScan name account phone l pm = some r ∧ r.name = name ∧
        pyIn account r.remarks = true := by
  intro l
  induction l with
  | nil => intro pm e he; exact absurd he (List.not_mem_nil e)
  | cons x xs ih =>
    intro pm e he hn hr ha
    simp only [envScan]
    by_cases h1 : x.name = name
    · by_cases h2 : x.remarks = ""
      · rw [if_pos (by simp [h2])]
        have hex : e ∈ xs := by
          cases List.mem_cons.mp he with
          | inl heq => subst heq; exact absurd h2 hr
          | inr h => exact h
        exact ih pm e hex hn hr ha
      · rw [if_neg (by simp [h1, h2])]
        by_cases hacc : pyIn account x.remarks = true
        · rw [if_pos hacc]
          exact ⟨x, rfl, h1, hacc⟩
        · rw [if_neg hacc]
          have hex : e ∈ xs := by
            cases List.mem_cons.mp he with
            | inl heq => subst heq; exact absurd ha hacc
            | inr h => exact h
          split
          · exact ih (some x) e hex hn hr ha
          · exact ih pm e hex hn hr ha
    · rw [if_pos (by simp [h1])]
      have hex : e ∈ xs := by
        cases List.mem_cons.mp he with
        | inl heq => subst heq; exact absurd hn h1
        | inr h => exact h
      exact ih pm e hex hn hr ha

/-- C3: whenever the fetched env list contains a variable with the searched
name whose remark contains the account id, `get_env_by_remark_and_name`
returns a variable with the searched name whose remark contains the account
id — never a phone-only fallback; the phone fallback can only be returned
when no account-id match exists among same-named variables. -/
theorem get_env_prefers_account_match (envs : List Env) (name account : String)
    (phone : Option String) (e : Env) (he : e ∈ envs) (hn : e.name = name)
    (hr : e.remarks ≠ "") (ha : pyIn account e.remarks = true) :
    ∃ r, get_env_by_remark_and_name envs name account phone = some r ∧
      r.name = name ∧ pyIn account r.remarks = true :=
  envScan_account name account phone envs none e he hn hr ha

/-- Witness for C3: a phone-only match sits first in the list, the account-id
match second; the lookup returns the account-id match. -/
theorem get_env_prefers_account_match_witness :
    (∃ r, get_env_by_remark_and_name
        [⟨some 1, none, "pg", "v", "胖乖:13800138000丨用户:U"⟩,
         ⟨some 2, none, "pg", "v", "账号:A1丨用户:U"⟩] "pg" "A1" (some "13800138000") =
          some r ∧ r.name = "pg" ∧ pyIn "A1" r.remarks = true) ∧
    get_env_by_remark_and_name
        [⟨some 1, none, "pg", "v", "胖乖:13800138000丨用户:U"⟩,
         ⟨some 2, none, "pg", "v", "账号:A1丨用户:U"⟩] "pg" "A1" (some "13800138000") =
      some ⟨some 2, none, "pg", "v", "账号:A1丨用户:U"⟩ ∧
    pyIn "A1" "胖乖:13800138000丨用户:U" = false :=
  ⟨get_env_prefers_account_match _ _ _ _ ⟨some 2, none, "pg", "v", "账号:A1丨用户:U"⟩
      (by decide) rfl (by decide) (by decide),
   by decide, by decide⟩

/-! ## C2: upsert idempotence -/

/-- A panel variable whose name matches and whose remark references the
account or the tagged phone. -/
def refMatch (osname account phone : String) (e : Env) : Bool :=
  e.name == osname && (pyIn account e.remarks || pyIn ("胖乖:" ++ phone) e.remarks)

theorem leadMatch_nil_right : ∀ hay : List Char, leadMatch hay [] = true
  | [] => rfl
  | _ :: _ => rfl

theorem leadMatch_append_self : ∀ a b : List Char, leadMatch (a ++ b) a = true
  | [], b => leadMatch_nil_right b
  | c :: a2, b => by simp [leadMatch, leadMatch_append_self a2 b]

theorem hasSub_of_leadMatch : ∀ l n : List Char, leadMatch l n = true → hasSub l n = true
  | [], n, h => by simpa [hasSub] using h
  | c :: t, n, h => by simp [hasSub, h]

theorem hasSub_append_self (a b : List Char) : hasSub (a ++ b) a = true :=
  hasSub_of_leadMatch _ _ (leadMatch_append_self a b)

/-- A string occurs in any string it prefixes. -/
theorem pyIn_prefix_self (t rest : String) : pyIn t (t ++ rest) = true := by
  show hasSub (t ++ rest).data t.data = true
  have hd : (t ++ rest).data = t.data ++ rest.data := rfl
  rw [hd]
  exact hasSub_append_self t.data rest.data

/-- The tagged-phone prefix makes the written remark non-empty. -/
theorem tag_append_ne_empty (s : String) : ("胖乖:" ++ s) ≠ "" := by
  intro h
  have hd : ("胖乖:" ++ s).data = ("" : String).data := congrArg String.data h
  rw [show ("胖乖:" ++ s).data = "胖乖:".data ++ s.data from rfl] at hd
  have := (List.append_eq_nil.mp hd).1
  exact absurd this (by decide)

theorem remarkStr_assoc (phone u a : String) :
    remarkStr phone u a =
      ("胖乖:" ++ phone) ++ ("丨用户:" ++ u ++ ("丨授权时间:" ++ a ++ "丨胖乖管理")) := by
  simp [remarkStr, strAppendAssoc]

theorem remarkStr_ne_empty (phone u a : String) : remarkStr phone u a ≠ "" := by
  rw [remarkStr_assoc, ← strAppendAssoc]
  exact fun h => tag_append_ne_empty _ (by rw [← strAppendAssoc] at h ⊢; exact h)

/-- The written remark contains the tagged phone. -/
theorem pyIn_tag_remarkStr (phone u a : String) :
    pyIn ("胖乖:" ++ phone) (remarkStr phone u a) = true := by
  rw [remarkStr_assoc]
  exact pyIn_prefix_self _ _

/-- Mapping a function that fixes every element is the identity. -/
theorem map_fix_id {α : Type} (f : α → α) : ∀ l : List α, (∀ a ∈ l, f a = a) → l.map f = l := by
  intro l
  induction l with
  | nil => intro _; rfl
  | cons x xs ih =>
    intro h
    rw [List.map_cons, h x (List.mem_cons_self x xs),
      ih (fun a ha => h a (List.mem_cons_of_mem x ha))]

/-- Scanning a list of non-matching envs is a no-op prefix. -/
theorem envScan_clean_append (osname account phone : String) (l₂ : List Env) :
    ∀ (l₁ : List Env) (pm : Option Env),
      (∀ e ∈ l₁, refMatch osname account phone e = false) →
      envScan osname account (some phone) (l₁ ++ l₂) pm =
        envScan osname account (some phone) l₂ pm := by
  intro l₁
  induction l₁ with
  | nil => intro pm _; rfl
  | cons x xs ih =>
    intro pm h
    have hx := h x (List.mem_cons_self x xs)
    have hxs : ∀ e ∈ xs, refMatch osname account phone e = false :=
      fun e he => h e (List.mem_cons_of_mem x he)
    simp only [List.cons_append, envScan]
    by_cases h1 : x.name = osname
    · by_cases h2 : x.remarks = ""
      · rw [if_pos (by simp [h2])]
        exact ih pm hxs
      · rw [if_neg (by simp [h1, h2])]
        have hb : pyIn account x.remarks = false ∧
            pyIn ("胖乖:" ++ phone) x.remarks = false := by
          simpa [refMatch, h1] using hx
        rw [if_neg (by simp [hb.1])]
        rw [if_neg (by simp [hb.2])]
        exact ih pm hxs
    · rw [if_pos (by simp [h1])]
      exact ih pm hxs

/-- The env that the add path of `add_or_update_env` creates. -/
def newEnvOf (p : PanelState) (osname value phone user_id auth_date : String) : Env :=
  ⟨some (p.nextId + 1), none, osname, pyQuote value, remarkStr phone user_id auth_date⟩

/-- C2: starting from a panel with the fresh-id invariant, no variable whose
name matches and whose remark references the account or tagged phone, and no
variable already holding the written (percent-encoded) value — the panel
rejects a duplicate-value add — running `add_or_update_env` twice with the
same name, token value, account, phone, owner and authorization date succeeds
both times and leaves exactly one matching panel variable; its remark is the
one the (second) call wrote — both calls write the same remark, so the second
call's remark supersedes the first's by updating the variable in place. -/
theorem add_or_update_env_idempotent (p : PanelState)
    (osname value account phone user_id auth_date : String)
    (hphone : phone ≠ "")
    (hfresh : ∀ e ∈ p.envs, ∀ i, e.envId = some i → i ≤ p.nextId)
    (hclean : ∀ e ∈ p.envs, refMatch osname account phone e = false)
    (hval : ∀ e ∈ p.envs, (e.value == pyQuote value) = false) :
    (add_or_update_env p osname value account phone user_id auth_date).2 = true ∧
    (add_or_update_env (add_or_update_env p osname value account phone user_id auth_date).1
        osname value account phone user_id auth_date).2 = true ∧
    ((add_or_update_env (add_or_update_env p osname value account phone user_id auth_date).1
        osname value account phone user_id auth_date).1).envs.filter
        (refMatch osname account phone) =
      [⟨some (p.nextId + 1), none, osname, pyQuote value,
        remarkStr phone user_id auth_date⟩] := by
  have hclean2 : ∀ (pm : Option Env),
      envScan osname account (some phone) p.envs pm = pm := by
    intro pm
    have := envScan_clean_append osname account phone [] p.envs pm hclean
    simpa using this
  have hfind1 : get_env_by_remark_and_name p.envs osname account (some phone) = none := by
    unfold get_env_by_remark_and_name
    exact hclean2 none
  have hany : (p.envs.any (fun e => e.value == pyQuote value)) = false := by
    rw [List.any_eq_false]
    intro e he
    simp [hval e he]
  have haddEq : panelAddEnv p osname (pyQuote value) (remarkStr phone user_id auth_date) =
      (⟨p.envs ++ [newEnvOf p osname value phone user_id auth_date], p.nextId + 1⟩,
       some (newEnvOf p osname value phone user_id auth_date)) := by
    simp only [panelAddEnv]
    rw [if_neg (by rw [hany]; exact Bool.false_ne_true)]
    rfl
  have hcall1 : add_or_update_env p osname value account phone user_id auth_date =
      (⟨p.envs ++ [newEnvOf p osname value phone user_id auth_date], p.nextId + 1⟩, true) := by
    simp only [add_or_update_env]
    rw [hfind1, haddEq]
  have hfind2 : get_env_by_remark_and_name
      (p.envs ++ [newEnvOf p osname value phone user_id auth_date]) osname account (some phone) =
      some (newEnvOf p osname value phone user_id auth_date) := by
    unfold get_env_by_remark_and_name
    rw [envScan_clean_append osname account phone
      [newEnvOf p osname value phone user_id auth_date] p.envs none hclean]
    simp only [envScan]
    rw [if_neg (by simp [newEnvOf, remarkStr_ne_empty])]
    by_cases hacc : pyIn account (newEnvOf p osname value phone user_id auth_date).remarks = true
    · rw [if_pos hacc]
    · rw [if_neg hacc]
      rw [if_pos (by simp [newEnvOf, hphone, pyIn_tag_remarkStr])]
  have hmatchNew : refMatch osname account phone
      (newEnvOf p osname value phone user_id auth_date) = true := by
    simp [refMatch, newEnvOf, pyIn_tag_remarkStr]
  have hge : ∀ e ∈ p.envs,
      (if e.envId == some (p.nextId + 1) then
        Env.mk e.envId e.altId osname (pyQuote value) (remarkStr phone user_id auth_date)
       else e) = e := by
    intro e he
    have hne : (e.envId == some (p.nextId + 1)) = false := by
      cases hei : e.envId with
      | none => rfl
      | some i =>
        have hi := hfresh e he i hei
        simp
        omega
    rw [hne]
    rfl
  have hfe : ((p.envs ++ [newEnvOf p osname value phone user_id auth_date]).filter
      (fun e => e.envId == some (p.nextId + 1))).isEmpty = false := by
    rw [List.filter_append]
    have h2 : [newEnvOf p osname value phone user_id auth_date].filter
        (fun e => e.envId == some (p.nextId + 1)) =
        [newEnvOf p osname value phone user_id auth_date] := by
      simp [newEnvOf]
    rw [h2]
    cases p.envs.filter (fun e => e.envId == some (p.nextId + 1)) <;> rfl
  have hmap : (p.envs ++ [newEnvOf p osname value phone user_id auth_date]).map
      (fun e => if e.envId == some (p.nextId + 1) then
        Env.mk e.envId e.altId osname (pyQuote value) (remarkStr phone user_id auth_date)
       else e) = p.envs ++ [newEnvOf p osname value phone user_id auth_date] := by
    rw [List.map_append, map_fix_id _ p.envs hge]
    have h1e : [newEnvOf p osname value phone user_id auth_date].map
        (fun e => if e.envId == some (p.nextId + 1) then
          Env.mk e.envId e.altId osname (pyQuote value) (remarkStr phone user_id auth_date)
         else e) = [newEnvOf p osname value phone user_id auth_date] := by
      simp [newEnvOf]
    rw [h1e]
  have hupd : panelUpdateEnv
      ⟨p.envs ++ [newEnvOf p osname value phone user_id auth_date], p.nextId + 1⟩
      (p.nextId + 1) osname (pyQuote value) (remarkStr phone user_id auth_date) =
      (⟨p.envs ++ [newEnvOf p osname value phone user_id auth_date], p.nextId + 1⟩,
       some (newEnvOf p osname value phone user_id auth_date)) := by
    simp only [panelUpdateEnv]
    rw [if_neg (by rw [hfe]; exact Bool.false_ne_true)]
    rw [hmap]
    rfl
  have hcall2 : add_or_update_env
      ⟨p.envs ++ [newEnvOf p osname value phone user_id auth_date], p.nextId + 1⟩
      osname value account phone user_id auth_date =
      (⟨p.envs ++ [newEnvOf p osname value phone user_id auth_date], p.nextId + 1⟩, true) := by
    simp only [add_or_update_env]
    rw [show get_env_by_remark_and_name
          (PanelState.mk (p.envs ++ [newEnvOf p osname value phone user_id auth_date])
            (p.nextId + 1)).envs osname account (some phone) =
          some (newEnvOf p osname value phone user_id auth_date) from hfind2]
    show ((panelUpdateEnv
        ⟨p.envs ++ [newEnvOf p osname value phone user_id auth_date], p.nextId + 1⟩
        (p.nextId + 1) osname (pyQuote value) (remarkStr phone user_id auth_date)).1,
      (panelUpdateEnv
        ⟨p.envs ++ [newEnvOf p osname value phone user_id auth_date], p.nextId + 1⟩
        (p.nextId + 1) osname (pyQuote value) (remarkStr phone user_id auth_date)).2.isSome) =
      (⟨p.envs ++ [newEnvOf p osname value phone user_id auth_date], p.nextId + 1⟩, true)
    rw [hupd]
    rfl
  refine ⟨?_, ?_, ?_⟩
  · rw [hcall1]
  · rw [hcall1]
    exact congrArg Prod.snd hcall2
  · rw [hcall1]
    have h1 : ((add_or_update_env
        (⟨p.envs ++ [newEnvOf p osname value phone user_id auth_date], p.nextId + 1⟩ : PanelState)
        osname value account phone user_id auth_date).1).envs =
        p.envs ++ [newEnvOf p osname value phone user_id auth_date] := by
      rw [hcall2]
    rw [h1, List.filter_append]
    have h2 : p.envs.filter (refMatch osname account phone) = [] :=
      List.filter_eq_nil_iff.mpr (fun a ha => by simp [hclean a ha])
    rw [h2, List.nil_append]
    simp only [List.filter_cons, hmatchNew, if_pos, List.filter_nil]
    rfl

/-- Witness for C2: two upserts on an empty panel leave exactly one matching
variable. -/
theorem add_or_update_env_idempotent_witness :
    (add_or_update_env ⟨[], 0⟩ "pg" "tok" "A1" "13800138000" "U1" "2025-01-01").2 = true ∧
    (add_or_update_env
        (add_or_update_env ⟨[], 0⟩ "pg" "tok" "A1" "13800138000" "U1" "2025-01-01").1
        "pg" "tok" "A1" "13800138000" "U1" "2025-01-01").2 = true ∧
    ((add_or_update_env
        (add_or_update_env ⟨[], 0⟩ "pg" "tok" "A1" "13800138000" "U1" "2025-01-01").1
        "pg" "tok" "A1" "13800138000" "U1" "2025-01-01").1).envs.filter
        (refMatch "pg" "A1" "13800138000") =
      [⟨some (0 + 1), none, "pg", pyQuote "tok", remarkStr "13800138000" "U1" "2025-01-01"⟩] :=
  add_or_update_env_idempotent ⟨[], 0⟩ "pg" "tok" "A1" "13800138000" "U1" "2025-01-01"
    (by decide) (fun e he => absurd he (List.not_mem_nil e))
    (fun e he => absurd he (List.not_mem_nil e))
    (fun e he => absurd he (List.not_mem_nil e))

/-! ## C7: the sweep notifies and deletes for the expired account only -/

/-- Is this event a notification for account `a`? -/
def isNotifyFor (a : String) : Event → Bool
  | .notify _ acct _ => acct == a
  | .deleteEnvs _ _ => false

/-- Is this event a panel-variable deletion for account `a`? -/
def isDeleteFor (a : String) : Event → Bool
  | .notify _ _ _ => false
  | .deleteEnvs acct _ => acct == a

/-- C7: in a sweep over a store where account A2 has a valid token but an
expiry date before today and account A3 has a valid token and an expiry date
on or after today, the sweep issues exactly one notification and exactly one
panel-variable deletion request, both for A2, and issues no notification, no
deletion and no store mutation for A3 (the sweep's only observable actions
are the two A2 events). -/
theorem scheduled_check_expiry_sweep
    (u A2 A3 t2 t3 s2 s3 : String) (d2 d3 today : Nat)
    (hne : A2 ≠ A3) (ht2 : t2 ≠ "") (ht3 : t3 ≠ "")
    (tokens auths : String → Option String) (infoFor : String → Option InfoResp)
    (htok2 : tokens A2 = some t2) (htok3 : tokens A3 = some t3)
    (hauth2 : auths A2 = some s2) (hauth3 : auths A3 = some s3)
    (hp2 : parseDate s2 = some d2) (hp3 : parseDate s3 = some d3)
    (hd2 : d2 < today) (hd3 : today ≤ d3)
    (hv2 : (verify_token (infoFor t2)).isSome) (hv3 : (verify_token (infoFor t3)).isSome)
    (envs : List Env) (osname : String)
    (hids : envIdsFor envs osname A2 ≠ []) :
    scheduled_check [(u, [A2, A3])] tokens auths infoFor today (some envs) osname =
      [Event.notify u A2 ("授权已于 " ++ s2 ++ " 过期，请及时续费。"),
       Event.deleteEnvs A2 (envIdsFor envs osname A2)] ∧
    (scheduled_check [(u, [A2, A3])] tokens auths infoFor today (some envs) osname).countP
      (isNotifyFor A2) = 1 ∧
    (scheduled_check [(u, [A2, A3])] tokens auths infoFor today (some envs) osname).countP
      (isDeleteFor A2) = 1 ∧
    (scheduled_check [(u, [A2, A3])] tokens auths infoFor today (some envs) osname).countP
      (fun e => eventAccount e == A3) = 0 := by
  obtain ⟨v2, hv2e⟩ := Option.isSome_iff_exists.mp hv2
  obtain ⟨v3, hv3e⟩ := Option.isSome_iff_exists.mp hv3
  have hs2 : s2 ≠ "" := parseDate_ne_empty hp2
  have hs3 : s3 ≠ "" := parseDate_ne_empty hp3
  have hnotle : ¬ (today ≤ d2) := by omega
  have hie : (envIdsFor envs osname A2).isEmpty = false := by
    cases h : envIdsFor envs osname A2 with
    | nil => exact absurd h hids
    | cons a t => rfl
  have hA2 : checkAccount tokens auths infoFor today (some envs) osname u A2 =
      [Event.notify u A2 ("授权已于 " ++ s2 ++ " 过期，请及时续费。"),
       Event.deleteEnvs A2 (envIdsFor envs osname A2)] := by
    simp [checkAccount, htok2, hauth2, hv2e, hp2, pyTruthyStr, ht2, hs2, hnotle, hie]
  have hA3 : checkAccount tokens auths infoFor today (some envs) osname u A3 = [] := by
    simp [checkAccount, htok3, hauth3, hv3e, hp3, pyTruthyStr, ht3, hs3, hd3]
  have hmain : scheduled_check [(u, [A2, A3])] tokens auths infoFor today (some envs) osname =
      [Event.notify u A2 ("授权已于 " ++ s2 ++ " 过期，请及时续费。"),
       Event.deleteEnvs A2 (envIdsFor envs osname A2)] := by
    simp [scheduled_check, sweepGo, sweepUser, pyDedup, pyDedupGo, Ne.symm hne, hA2, hA3]
  refine ⟨hmain, ?_, ?_, ?_⟩
  · rw [hmain]
    simp [List.countP_cons, isNotifyFor]
  · rw [hmain]
    simp [List.countP_cons, isDeleteFor]
  · rw [hmain]
    simp [List.countP_cons, eventAccount, hne]

/-- Witness for C7: one user with accounts A2 (expired 2025-01-05) and A3
(expires 2025-01-07), run on 2025-01-06 (ordinal 739257); both tokens verify;
the panel holds one env for each account. -/
theorem scheduled_check_expiry_sweep_witness :
    scheduled_check [("u", ["A2", "A3"])]
        (fun a => if a = "A2" then some "t2" else if a = "A3" then some "t3" else none)
        (fun a => if a = "A2" then some "2025-01-05" else
          if a = "A3" then some "2025-01-07" else none)
        (fun _ => some ⟨0, some ⟨some "13800138000", some 99⟩⟩)
        739257
        (some [⟨some 5, none, "pg", "v", "remark A2 here"⟩,
               ⟨some 6, none, "pg", "v", "remark A3 here"⟩])
        "pg" =
      [Event.notify "u" "A2" ("授权已于 " ++ "2025-01-05" ++ " 过期，请及时续费。"),
       Event.deleteEnvs "A2" (envIdsFor
          [⟨some 5, none, "pg", "v", "remark A2 here"⟩,
           ⟨some 6, none, "pg", "v", "remark A3 here"⟩] "pg" "A2")] ∧
    (scheduled_check [("u", ["A2", "A3"])]
        (fun a => if a = "A2" then some "t2" else if a = "A3" then some "t3" else none)
        (fun a => if a = "A2" then some "2025-01-05" else
          if a = "A3" then some "2025-01-07" else none)
        (fun _ => some ⟨0, some ⟨some "13800138000", some 99⟩⟩)
        739257
        (some [⟨some 5, none, "pg", "v", "remark A2 here"⟩,
               ⟨some 6, none, "pg", "v", "remark A3 here"⟩])
        "pg").countP (isNotifyFor "A2") = 1 ∧
    (scheduled_check [("u", ["A2", "A3"])]
        (fun a => if a = "A2" then some "t2" else if a = "A3" then some "t3" else none)
        (fun a => if a = "A2" then some "2025-01-05" else
          if a = "A3" then some "2025-01-07" else none)
        (fun _ => some ⟨0, some ⟨some "13800138000", some 99⟩⟩)
        739257
        (some [⟨some 5, none, "pg", "v", "remark A2 here"⟩,
               ⟨some 6, none, "pg", "v", "remark A3 here"⟩])
        "pg").countP (isDeleteFor "A2") = 1 ∧
    (scheduled_check [("u", ["A2", "A3"])]
        (fun a => if a = "A2" then some "t2" else if a = "A3" then some "t3" else none)
        (fun a => if a = "A2" then some "2025-01-05" else
          if a = "A3" then some "2025-01-07" else none)
        (fun _ => some ⟨0, some ⟨some "13800138000", some 99⟩⟩)
        739257
        (some [⟨some 5, none, "pg", "v", "remark A2 here"⟩,
               ⟨some 6, none, "pg", "v", "remark A3 here"⟩])
        "pg").countP (fun e => eventAccount e == "A3") = 0 :=
  scheduled_check_expiry_sweep "u" "A2" "A3" "t2" "t3" "2025-01-05" "2025-01-07"
    739256 739258 739257 (by decide) (by decide) (by decide)
    (fun a => if a = "A2" then some "t2" else if a = "A3" then some "t3" else none)
    (fun a => if a = "A2" then some "2025-01-05" else
      if a = "A3" then some "2025-01-07" else none)
    (fun _ => some ⟨0, some ⟨some "13800138000", some 99⟩⟩)
    (by decide) (by decide) (by decide) (by decide) (by decide) (by decide)
    (by decide) (by decide) (by decide) (by decide)
    [⟨some 5, none, "pg", "v", "remark A2 here"⟩,
     ⟨some 6, none, "pg", "v", "remark A3 here"⟩] "pg" (by decide)
